import Mathlib

/-!
Verification of the banking-simulator repository: a shallow embedding of the
simulation clock, metrics confusion-matrix accounting, the mock fraud scorer,
the HTTP retry loop, the fraud generators, the fraud-pattern setup, the
life-event overlay, and the mock core-banking connector, with theorems
settling the spec's claims about them.  Real-valued quantities (times,
amounts, scores) are modelled as rationals; Python's `round(x, n)` and
`f"{x:.2f}"` (round-half-to-even) are modelled explicitly.
-/

namespace BankingSim

/-- Round-half-to-even on rationals, Python's `round()` tie-breaking rule
idealised over exact rationals. -/
def roundHalfEven (x : ℚ) : ℤ :=
  if x - ⌊x⌋ < 1/2 then ⌊x⌋
  else if 1/2 < x - ⌊x⌋ then ⌊x⌋ + 1
  else if ⌊x⌋ % 2 = 0 then ⌊x⌋ else ⌊x⌋ + 1

/-- Python `round(x, 2)` (also the rounding done by `f"{x:.2f}"` formatting). -/
def round2 (x : ℚ) : ℚ := (roundHalfEven (x * 100) : ℚ) / 100

/-- Python `round(x, 3)`. -/
def round3 (x : ℚ) : ℚ := (roundHalfEven (x * 1000) : ℚ) / 1000

theorem roundHalfEven_ge (x : ℚ) : x - 1/2 ≤ (roundHalfEven x : ℚ) := by
  have hf : (⌊x⌋ : ℚ) ≤ x := Int.floor_le x
  have hf2 : x < (⌊x⌋ : ℚ) + 1 := Int.lt_floor_add_one x
  unfold roundHalfEven
  split_ifs with h1 h2 h3 <;> push_cast <;> linarith

theorem roundHalfEven_le_of_le_int (x : ℚ) (c : ℤ) (h : x ≤ (c : ℚ)) :
    roundHalfEven x ≤ c := by
  have hfc : ⌊x⌋ ≤ c := by
    have := Int.floor_le_floor h
    simpa using this
  unfold roundHalfEven
  split_ifs with h1 h2 h3
  · exact hfc
  · have hfq : (⌊x⌋ : ℚ) ≤ x := Int.floor_le x
    have hlt : (⌊x⌋ : ℚ) < (c : ℚ) := by linarith
    have : ⌊x⌋ < c := by exact_mod_cast hlt
    omega
  · exact hfc
  · have h1' : 1/2 ≤ x - ⌊x⌋ := le_of_not_lt h1
    have hlt : (⌊x⌋ : ℚ) < (c : ℚ) := by linarith
    have : ⌊x⌋ < c := by exact_mod_cast hlt
    omega

theorem round2_ge (x : ℚ) : x - 1/200 ≤ round2 x := by
  unfold round2
  have h := roundHalfEven_ge (x * 100)
  linarith

theorem round2_le_of_le_cent (x : ℚ) (c : ℤ) (h : x * 100 ≤ (c : ℚ)) :
    round2 x ≤ (c : ℚ) / 100 := by
  unfold round2
  have h2 : (roundHalfEven (x * 100) : ℚ) ≤ (c : ℚ) := by
    exact_mod_cast roundHalfEven_le_of_le_int (x * 100) c h
  linarith

/-- Python `max(0.0, min(1.0, x))`, the clamp used by the mock scorer. -/
def clamp01 (x : ℚ) : ℚ := max 0 (min 1 x)

theorem clamp01_nonneg (x : ℚ) : 0 ≤ clamp01 x := le_max_left 0 _

theorem clamp01_le_one (x : ℚ) : clamp01 x ≤ 1 :=
  max_le (by norm_num) (min_le_left 1 x)

/-!  ## Simulation clock (src/simulator/engine.py, class SimulationClock)

Wall-clock instants (`datetime.now()`) are passed explicitly as a rational
`now` parameter; `timedelta` values are rationals. -/

structure SimulationClock where
  speed_multiplier : ℚ
  real_start_time : ℚ
  sim_start_time : ℚ
  paused : Bool
  pause_duration : ℚ
  pause_start : Option ℚ
deriving DecidableEq, Repr

namespace SimulationClock

/-- Construction: both start times are `datetime.now()` taken at the same
instant `now`. -/
def init (speed : ℚ) (now : ℚ) : SimulationClock :=
  ⟨speed, now, now, false, 0, none⟩

/-- `SimulationClock.get_current_sim_time` (engine.py lines 69-76). -/
def get_current_sim_time (c : SimulationClock) (now : ℚ) : ℚ :=
  if c.paused then c.sim_start_time
  else c.sim_start_time + (now - c.real_start_time - c.pause_duration) * c.speed_multiplier

/-- `SimulationClock.pause` (engine.py lines 78-82). -/
def pause (c : SimulationClock) (now : ℚ) : SimulationClock :=
  if c.paused then c
  else { c with pause_start := some now, paused := true }

/-- `SimulationClock.resume` (engine.py lines 84-89); the guard
`self.paused and self.pause_start` is modelled by `isSome` since a
`datetime` is always truthy. -/
def resume (c : SimulationClock) (now : ℚ) : SimulationClock :=
  if c.paused ∧ c.pause_start.isSome then
    { c with pause_duration := c.pause_duration + (now - c.pause_start.getD 0),
             paused := false,
             pause_start := none }
  else c

/-- `SimulationClock.set_speed` (engine.py lines 91-97). -/
def set_speed (c : SimulationClock) (now : ℚ) (multiplier : ℚ) : SimulationClock :=
  let current_sim := c.get_current_sim_time now
  { c with real_start_time := now - c.pause_duration,
           sim_start_time := current_sim,
           speed_multiplier := multiplier }

/-- `SimulationClock.sleep_for_sim_time` (engine.py lines 99-101). -/
def sleep_for_sim_time (c : SimulationClock) (sim_duration : ℚ) : ℚ :=
  sim_duration / c.speed_multiplier

theorem get_unpaused (c : SimulationClock) (h : c.paused = false) (now : ℚ) :
    c.get_current_sim_time now =
      c.sim_start_time + (now - c.real_start_time - c.pause_duration) * c.speed_multiplier := by
  simp [get_current_sim_time, h]

theorem get_paused (c : SimulationClock) (h : c.paused = true) (now : ℚ) :
    c.get_current_sim_time now = c.sim_start_time := by
  simp [get_current_sim_time, h]

end SimulationClock

/-- A concrete clock used by the C1 counterexample: speed 1, started at real
and simulated time 0, never paused and never re-anchored. -/
def clockC1 : SimulationClock := SimulationClock.init 1 0

/-- Claim C1, counterexample: on `clockC1` the simulated time at the
moment `pause()` is called (real time 10) is 10, yet while paused
`get_current_sim_time()` returns the anchor `sim_start_time = 0`, not 10;
so the frozen value is not the simulated time at the moment of the pause. -/
theorem C1_pause_freeze_counterexample :
    clockC1.get_current_sim_time 10 = 10 ∧
    (clockC1.pause 10).get_current_sim_time 10 = 0 ∧
    (0 : ℚ) ≠ 10 := by
  refine ⟨?_, ?_, by norm_num⟩ <;>
    simp [clockC1, SimulationClock.init, SimulationClock.pause,
      SimulationClock.get_current_sim_time]

/-- Claim C1 as amended: while paused, every call to
`get_current_sim_time()` returns the same value, namely the clock's
`sim_start_time` anchor (the simulated time at construction or at the last
`set_speed` re-anchoring) --- which is in general not the simulated time at
the moment `pause()` was called; and after `resume()`, the pause interval
is excluded from elapsed real time, so the simulated time a real delay `d`
after the resume equals the simulated time that would have been reached a
real delay `d` after the pause moment had the pause never happened. -/
theorem C1_pause_freeze_amended (c : SimulationClock) (tp tr : ℚ)
    (hp : c.paused = false) :
    (∀ t u : ℚ, (c.pause tp).get_current_sim_time t = (c.pause tp).get_current_sim_time u) ∧
    (∀ t : ℚ, (c.pause tp).get_current_sim_time t = c.sim_start_time) ∧
    (∀ d : ℚ, ((c.pause tp).resume tr).get_current_sim_time (tr + d) =
      c.get_current_sim_time (tp + d)) := by
  have hpp : (c.pause tp).paused = true := by
    simp [SimulationClock.pause, hp]
  have hps : (c.pause tp).sim_start_time = c.sim_start_time := by
    simp [SimulationClock.pause, hp]
  refine ⟨?_, ?_, ?_⟩
  · intro t u
    rw [SimulationClock.get_paused _ hpp, SimulationClock.get_paused _ hpp]
  · intro t
    rw [SimulationClock.get_paused _ hpp, hps]
  · intro d
    have h1 : ((c.pause tp).resume tr).paused = false := by
      simp [SimulationClock.pause, SimulationClock.resume, hp]
    have h2 : ((c.pause tp).resume tr).sim_start_time = c.sim_start_time := by
      simp [SimulationClock.pause, SimulationClock.resume, hp]
    have h3 : ((c.pause tp).resume tr).real_start_time = c.real_start_time := by
      simp [SimulationClock.pause, SimulationClock.resume, hp]
    have h4 : ((c.pause tp).resume tr).pause_duration =
        c.pause_duration + (tr - tp) := by
      simp [SimulationClock.pause, SimulationClock.resume, hp]
    have h5 : ((c.pause tp).resume tr).speed_multiplier = c.speed_multiplier := by
      simp [SimulationClock.pause, SimulationClock.resume, hp]
    rw [SimulationClock.get_unpaused _ h1, SimulationClock.get_unpaused c hp,
      h2, h3, h4, h5]
    ring

/-- Witness for `C1_pause_freeze_amended` at a concrete clock: speed 2,
anchored at real time 0 / simulated time 100, paused at 10, resumed at 25. -/
theorem C1_pause_freeze_witness :
    (⟨2, 0, 100, false, 0, none⟩ : SimulationClock).paused = false ∧
    ((⟨2, 0, 100, false, 0, none⟩ : SimulationClock).pause 10).get_current_sim_time 17 =
      (⟨2, 0, 100, false, 0, none⟩ : SimulationClock).sim_start_time ∧
    (((⟨2, 0, 100, false, 0, none⟩ : SimulationClock).pause 10).resume 25).get_current_sim_time (25 + 3) =
      (⟨2, 0, 100, false, 0, none⟩ : SimulationClock).get_current_sim_time (10 + 3) :=
  ⟨rfl, (C1_pause_freeze_amended ⟨2, 0, 100, false, 0, none⟩ 10 25 rfl).2.1 17,
    (C1_pause_freeze_amended ⟨2, 0, 100, false, 0, none⟩ 10 25 rfl).2.2 3⟩

/-- Claim C9: `set_speed(m)` re-anchors `real_start_time`/`sim_start_time`
to the current simulated instant, so on an unpaused clock the simulated
time immediately before the speed change equals the simulated time
immediately after it, while subsequent simulated time advances at the new
multiplier `m`. -/
theorem C9_set_speed_continuity (c : SimulationClock) (now m : ℚ)
    (hp : c.paused = false) (hm : 0 < m) :
    (c.set_speed now m).get_current_sim_time now = c.get_current_sim_time now ∧
    (c.set_speed now m).speed_multiplier = m ∧
    ∀ d : ℚ, (c.set_speed now m).get_current_sim_time (now + d) =
      c.get_current_sim_time now + d * m := by
  have hsp : (c.set_speed now m).paused = false := hp
  refine ⟨?_, rfl, ?_⟩
  · rw [SimulationClock.get_unpaused _ hsp]
    show c.get_current_sim_time now +
      (now - (now - c.pause_duration) - c.pause_duration) * m = _
    ring
  · intro d
    rw [SimulationClock.get_unpaused _ hsp]
    show c.get_current_sim_time now +
      (now + d - (now - c.pause_duration) - c.pause_duration) * m = _
    ring

/-- Witness for `C9_set_speed_continuity`: a clock at speed 2, anchored at
real 0 / simulated 100 with accumulated pause 5, re-speeded to 7 at real
time 50. -/
theorem C9_set_speed_witness :
    (⟨2, 0, 100, false, 5, none⟩ : SimulationClock).paused = false ∧
    (0 : ℚ) < 7 ∧
    ((⟨2, 0, 100, false, 5, none⟩ : SimulationClock).set_speed 50 7).get_current_sim_time 50 =
      (⟨2, 0, 100, false, 5, none⟩ : SimulationClock).get_current_sim_time 50 :=
  ⟨rfl, by norm_num,
    (C9_set_speed_continuity ⟨2, 0, 100, false, 5, none⟩ 50 7 rfl (by norm_num)).1⟩

/-!  ## Metrics collector counters (src/simulator/metrics.py)

Counters (`defaultdict(int)` keyed by name) are modelled as a total map
`String → ℕ`; the time-series mirroring done by `record_counter` carries
no information for the claims and is projected away. -/

structure MetricsCollector where
  enabled : Bool
  counters : String → ℕ

namespace MetricsCollector

/-- `MetricsCollector.record_counter` (metrics.py lines 296-306), counter
part; does nothing when the collector is disabled. -/
def record_counter (m : MetricsCollector) (name : String) (value : ℕ := 1) :
    MetricsCollector :=
  if m.enabled = false then m
  else { m with counters := fun n => if n = name then m.counters n + value else m.counters n }

/-- `MetricsCollector.record_fraud_decision` (metrics.py lines 359-368). -/
def record_fraud_decision (m : MetricsCollector)
    (predicted_fraud actual_fraud : Bool) : MetricsCollector :=
  if predicted_fraud && actual_fraud then m.record_counter "true_positives"
  else if predicted_fraud && !actual_fraud then m.record_counter "false_positives"
  else if !predicted_fraud && actual_fraud then m.record_counter "false_negatives"
  else m.record_counter "true_negatives"

end MetricsCollector

/-- Engine side of the fraud-accuracy accounting
(`SimulationEngine._process_single_transaction`, engine.py lines 711-720):
`decision = fraud_score_result.get("action", "APPROVE").upper()`,
`predicted_fraud = decision in ["REVIEW", "DECLINE"]`,
`actual_fraud = transaction.metadata.get("is_fraud", False)`. -/
def engine_predicted_fraud (action : Option String) : Bool :=
  let decision := (action.getD "APPROVE").toUpper
  decision == "REVIEW" || decision == "DECLINE"

/-- Engine classification step: record the fraud decision outcome in the
metrics collector. -/
def engine_record_fraud_decision (m : MetricsCollector) (action : Option String)
    (is_fraud : Bool) : MetricsCollector :=
  m.record_fraud_decision (engine_predicted_fraud action) is_fraud

/-- Claim C2: for every processed transaction the engine's fraud-scoring
decision lands in exactly one confusion-matrix counter: with predicted
fraud defined as decision ∈ individually uppercased set of review/decline,
true_positives is incremented when predicted and actual both hold,
false_positives when predicted only, false_negatives when actual only, and
true_negatives when neither; the other three counters are untouched. -/
theorem C2_confusion_matrix (m : MetricsCollector) (action : Option String)
    (is_fraud : Bool) (he : m.enabled = true) :
    (engine_record_fraud_decision m action is_fraud).counters "true_positives" =
      m.counters "true_positives" +
        (if engine_predicted_fraud action && is_fraud then 1 else 0) ∧
    (engine_record_fraud_decision m action is_fraud).counters "false_positives" =
      m.counters "false_positives" +
        (if engine_predicted_fraud action && !is_fraud then 1 else 0) ∧
    (engine_record_fraud_decision m action is_fraud).counters "false_negatives" =
      m.counters "false_negatives" +
        (if !engine_predicted_fraud action && is_fraud then 1 else 0) ∧
    (engine_record_fraud_decision m action is_fraud).counters "true_negatives" =
      m.counters "true_negatives" +
        (if !engine_predicted_fraud action && !is_fraud then 1 else 0) := by
  unfold engine_record_fraud_decision
  cases hpf : engine_predicted_fraud action <;> cases is_fraud <;>
    simp [MetricsCollector.record_fraud_decision, MetricsCollector.record_counter, he]

/-- Witness for `C2_confusion_matrix`: an enabled collector with all
counters at zero, a transaction stamped fraudulent, decision `DECLINE`:
only the true-positive counter moves to 1. -/
theorem C2_confusion_matrix_witness :
    ({ enabled := true, counters := fun _ => 0 } : MetricsCollector).enabled = true ∧
    (engine_record_fraud_decision { enabled := true, counters := fun _ => 0 }
        (some "DECLINE") true).counters "true_positives" =
      (fun (_ : String) => 0) "true_positives" +
        (if engine_predicted_fraud (some "DECLINE") && true then 1 else 0) :=
  ⟨rfl, (C2_confusion_matrix { enabled := true, counters := fun _ => 0 }
    (some "DECLINE") true rfl).1⟩

/-!  ## Mock fraud scorer (src/simulator/connectors/bastion.py,
`MockBastionConnector._mock_score_transaction`, lines 438-536)

The two `random.uniform` noise draws are a single explicit `noise`
parameter (which branch is taken depends only on the fraud flag); the
wall-clock hour is the `current_hour` parameter. -/

/-- Risk-score computation of `_mock_score_transaction` up to and
including the final clamp `max(0.0, min(1.0, risk_score))`. -/
def mock_risk_score (amount : ℚ) (country : String) (current_hour : ℕ)
    (channel : String) (is_fraud : Bool) (fraud_type : String) (noise : ℚ) : ℚ :=
  let risk1 : ℚ := 1/10
  let risk2 := if amount > 10000 then risk1 + 4/10
    else if amount < 1 then risk1 + 3/10 else risk1
  let risk3 := if country ∈ (["RU", "NG", "RO", "CN"] : List String)
    then risk2 + 5/10 else risk2
  let risk4 := if current_hour < 6 ∨ current_hour > 23 then risk3 + 2/10 else risk3
  let risk5 := if channel = "wire" then risk4 + 1/10
    else if channel = "atm" ∧ current_hour < 6 then risk4 + 3/10 else risk4
  let risk6 := if is_fraud then
      let forced := max risk5 (8/10)
      if fraud_type = "card_testing" then min (forced + 2/10) 1
      else if fraud_type = "velocity_attack" then min (forced + 3/10) 1
      else if fraud_type = "layering" then min (forced + 1/10) 1
      else forced
    else risk5
  clamp01 (risk6 + noise)

/-- Decision thresholds of `_mock_score_transaction` (bastion.py lines
499-505). -/
def mock_decision (risk_score : ℚ) : String :=
  if risk_score ≥ 8/10 then "DECLINE"
  else if risk_score ≥ 5/10 then "REVIEW"
  else "APPROVE"

/-- The scored response, projected to the fields the engine consumes:
`risk_score` (rounded to 3 decimals in the JSON payload) and `action`. -/
structure ScoreResponse where
  risk_score : ℚ
  action : String
deriving DecidableEq, Repr

/-- `_mock_score_transaction`, projected to the response fields the
claims are about. -/
def mock_score_transaction (amount : ℚ) (country : String) (current_hour : ℕ)
    (channel : String) (is_fraud : Bool) (fraud_type : String) (noise : ℚ) :
    ScoreResponse :=
  let risk := mock_risk_score amount country current_hour channel is_fraud fraud_type noise
  { risk_score := round3 risk, action := mock_decision risk }

theorem mock_decision_spec (r : ℚ) :
    (mock_decision r = "DECLINE" ↔ r ≥ 8/10) ∧
    (mock_decision r = "REVIEW" ↔ 5/10 ≤ r ∧ r < 8/10) ∧
    (mock_decision r = "APPROVE" ↔ r < 5/10) := by
  unfold mock_decision
  split_ifs with h1 h2
  · exact ⟨⟨fun _ => h1, fun _ => rfl⟩,
      ⟨fun h => absurd h (by decide), fun h => absurd h1 (by push_neg; linarith [h.2])⟩,
      ⟨fun h => absurd h (by decide), fun h => absurd h1 (by push_neg; linarith)⟩⟩
  · exact ⟨⟨fun h => absurd h (by decide), fun h => absurd h h1⟩,
      ⟨fun _ => ⟨h2, lt_of_not_ge h1⟩, fun _ => rfl⟩,
      ⟨fun h => absurd h (by decide), fun h => absurd h2 (by push_neg; linarith)⟩⟩
  · exact ⟨⟨fun h => absurd h (by decide), fun h => absurd h h1⟩,
      ⟨fun h => absurd h (by decide), fun h => absurd h.1 h2⟩,
      ⟨fun _ => lt_of_not_ge h2, fun _ => rfl⟩⟩

/-- Claim C3: for every input to the mock fraud scorer, writing `r` for
the computed risk score after the clamp to `[0,1]`, the returned action is
`DECLINE` iff `r ≥ 0.8`, `REVIEW` iff `0.5 ≤ r < 0.8`, and `APPROVE` iff
`r < 0.5`; and `r` indeed lies in `[0,1]`. -/
theorem C3_mock_scoring_thresholds (amount : ℚ) (country : String)
    (current_hour : ℕ) (channel : String) (is_fraud : Bool)
    (fraud_type : String) (noise : ℚ) :
    0 ≤ mock_risk_score amount country current_hour channel is_fraud fraud_type noise ∧
    mock_risk_score amount country current_hour channel is_fraud fraud_type noise ≤ 1 ∧
    ((mock_score_transaction amount country current_hour channel is_fraud fraud_type noise).action = "DECLINE" ↔
      mock_risk_score amount country current_hour channel is_fraud fraud_type noise ≥ 8/10) ∧
    ((mock_score_transaction amount country current_hour channel is_fraud fraud_type noise).action = "REVIEW" ↔
      5/10 ≤ mock_risk_score amount country current_hour channel is_fraud fraud_type noise ∧
      mock_risk_score amount country current_hour channel is_fraud fraud_type noise < 8/10) ∧
    ((mock_score_transaction amount country current_hour channel is_fraud fraud_type noise).action = "APPROVE" ↔
      mock_risk_score amount country current_hour channel is_fraud fraud_type noise < 5/10) := by
  refine ⟨?_, ?_, ?_, ?_, ?_⟩
  · exact clamp01_nonneg _
  · exact clamp01_le_one _
  all_goals
    show mock_decision _ = _ ↔ _
  · exact (mock_decision_spec _).1
  · exact (mock_decision_spec _).2.1
  · exact (mock_decision_spec _).2.2

/-!  ## HTTP retry loop (src/simulator/connectors/nexum.py lines 80-161 and
src/simulator/connectors/bastion.py lines 84-165, `_make_request`)

The two connectors' `_make_request` bodies are textually identical; one
embedding covers both.  The transport is a function from the 0-based
attempt index to the observed event (an HTTP status, a timeout, or a
connection failure); the trace records how many HTTP requests were issued,
the backoff sleeps (in seconds) in order, and the surfaced outcome. -/

inductive HttpEvent where
  | status (code : ℕ)
  | timeout_exception
  | connect_error
deriving DecidableEq, Repr

inductive RequestOutcome where
  | success
  | api_error (code : ℕ)
  | connection_error
deriving DecidableEq, Repr

structure RequestTrace where
  attempts : ℕ
  sleeps : List ℕ
  outcome : RequestOutcome
deriving DecidableEq, Repr

/-- One iteration of `for attempt in range(max_retries + 1)` and the
recursion into the next iteration; `fuel` is the number of loop iterations
still available, and falling off the loop end raises
`ConnectionError("Max retries exceeded")`. -/
def make_request_go (transport : ℕ → HttpEvent) (max_retries : ℕ) :
    ℕ → ℕ → RequestTrace
  | _, 0 => ⟨0, [], .connection_error⟩
  | attempt, fuel + 1 =>
    match transport attempt with
    | .status code =>
      if code = 200 ∨ code = 201 then ⟨1, [], .success⟩
      else if 400 ≤ code then
        if attempt = max_retries then ⟨1, [], .api_error code⟩
        else if 500 ≤ code then
          let rest := make_request_go transport max_retries (attempt + 1) fuel
          ⟨rest.attempts + 1, 2 ^ attempt :: rest.sleeps, rest.outcome⟩
        else ⟨1, [], .api_error code⟩
      else
        let rest := make_request_go transport max_retries (attempt + 1) fuel
        ⟨rest.attempts + 1, rest.sleeps, rest.outcome⟩
    | .timeout_exception =>
      if attempt = max_retries then ⟨1, [], .connection_error⟩
      else
        let rest := make_request_go transport max_retries (attempt + 1) fuel
        ⟨rest.attempts + 1, 2 ^ attempt :: rest.sleeps, rest.outcome⟩
    | .connect_error =>
      if attempt = max_retries then ⟨1, [], .connection_error⟩
      else
        let rest := make_request_go transport max_retries (attempt + 1) fuel
        ⟨rest.attempts + 1, 2 ^ attempt :: rest.sleeps, rest.outcome⟩

/-- `_make_request`: run the attempt loop from attempt 0 with its full
`max_retries + 1` iterations. -/
def make_request (transport : ℕ → HttpEvent) (max_retries : ℕ) : RequestTrace :=
  make_request_go transport max_retries 0 (max_retries + 1)

/-- Claim C4: with `max_retries = 3`, a transport that always answers
HTTP 503 sees exactly 4 attempts (1 initial + 3 retries) with backoff
sleeps of 2^0, 2^1, 2^2 seconds between attempts and then surfaces the
last API error; a transport that always answers HTTP 404 sees exactly 1
attempt, no sleep, and an immediate API error. -/
theorem C4_retry_exhaustion :
    make_request (fun _ => .status 503) 3 =
      ⟨4, [1, 2, 4], .api_error 503⟩ ∧
    make_request (fun _ => .status 404) 3 =
      ⟨1, [], .api_error 404⟩ := by
  constructor <;> rfl

/-!  ## Fraud generators (src/simulator/generators/fraud.py)

`random.uniform`/`random.random` draws are explicit streams `ℕ → ℚ`
indexed by the loop position that consumes them.  Generated transactions
are projected to the fields the claims talk about: the 1-based sequence
number and the amount `round(amount, 2)`. -/

/-- `FraudGenerator._generate_structuring_transactions` loop body
(fraud.py lines 729-738, state accounting): while `remaining > 0` and
`sequence < transaction_count`, take `amount = min(remaining,
uniform(0.8 * individual_max, individual_max))` (the uniform draw is
`draws sequence`), emit `round(amount, 2)`, and subtract the unrounded
amount.  Returns the emitted amounts and the final remaining amount;
`fuel` bounds the iterations (the caller passes enough for the guard to
decide termination). -/
def generate_structuring_go (draws : ℕ → ℚ) (transaction_count : ℕ) :
    ℚ → ℕ → ℕ → List ℚ × ℚ
  | remaining, _, 0 => ([], remaining)
  | remaining, sequence, fuel + 1 =>
    if 0 < remaining ∧ sequence < transaction_count then
      let amount := min remaining (draws sequence)
      let rest := generate_structuring_go draws transaction_count
        (remaining - amount) (sequence + 1) fuel
      (round2 amount :: rest.1, rest.2)
    else ([], remaining)

/-- `transaction_count = math.ceil(target_amount / individual_max)`
(fraud.py line 363, stored in the profile metadata and read back at line
731). -/
def structuring_transaction_count (target_amount individual_max : ℚ) : ℕ :=
  ⌈target_amount / individual_max⌉.toNat

/-- `FraudGenerator._generate_structuring_transactions`
(fraud.py lines 720-765), projected to the amounts: run the while loop
from `remaining = target_amount`, `sequence = 0`. -/
def generate_structuring_transactions (draws : ℕ → ℚ)
    (target_amount individual_max : ℚ) : List ℚ × ℚ :=
  let cap := structuring_transaction_count target_amount individual_max
  generate_structuring_go draws cap target_amount 0 (cap + 1)

/-- Claim C5, counterexample: with `individual_max = 9999` and target
`59994 = 6 × 9999`, drawing the uniform minimum `0.8 × 9999 = 39996/5` at
every step (a legal draw), the loop stops at the transaction-count cap
`⌈59994/9999⌉ = 6` with sum `6 × 39996/5 = 239976/5 = 47995.2`, which is
less than `target - 9999 = 49995`: the sum of generated amounts is NOT
always ≥ the target minus one transaction's worth. -/
theorem C5_structuring_counterexample :
    ((8:ℚ)/10 * 9999 ≤ 39996/5 ∧ (39996:ℚ)/5 ≤ 9999) ∧
    (generate_structuring_transactions (fun _ => 39996/5) 59994 9999).1 =
      List.replicate 6 (39996/5) ∧
    (generate_structuring_transactions (fun _ => 39996/5) 59994 9999).1.sum =
      239976/5 ∧
    ¬ ((239976:ℚ)/5 ≥ 59994 - 9999) := by
  have hrun : generate_structuring_transactions (fun _ => 39996/5) 59994 9999 =
      (List.replicate 6 (39996/5), 59994/5) := by
    norm_num [generate_structuring_transactions, structuring_transaction_count,
      generate_structuring_go, round2, roundHalfEven, min_def, List.replicate,
      Int.toNat_ofNat]
  refine ⟨⟨by norm_num, by norm_num⟩, by rw [hrun], ?_, by norm_num⟩
  rw [hrun]
  norm_num [List.sum_replicate]

/-- Invariant of the structuring loop: amounts stay at or below 9999, at
most `cap - sequence` further transactions are emitted, the unrounded
amount consumed is at least `min remaining (0.8 × 9999 × (cap - sequence))`,
the emitted (rounded) sum is within half a cent per transaction of the
consumed amount, and stopping before the cap means the target was
exhausted. -/
theorem structuring_go_spec (draws : ℕ → ℚ) (cap : ℕ)
    (hd : ∀ n, 39996/5 ≤ draws n ∧ draws n ≤ 9999) :
    ∀ fuel remaining sequence, cap < sequence + fuel →
      (∀ x ∈ (generate_structuring_go draws cap remaining sequence fuel).1, x ≤ 9999) ∧
      (generate_structuring_go draws cap remaining sequence fuel).1.length ≤ cap - sequence ∧
      min remaining (39996/5 * ((cap - sequence : ℕ) : ℚ)) ≤
        remaining - (generate_structuring_go draws cap remaining sequence fuel).2 ∧
      remaining - (generate_structuring_go draws cap remaining sequence fuel).2
          - ((generate_structuring_go draws cap remaining sequence fuel).1.length : ℚ) / 200
        ≤ (generate_structuring_go draws cap remaining sequence fuel).1.sum ∧
      ((generate_structuring_go draws cap remaining sequence fuel).1.length < cap - sequence →
        (generate_structuring_go draws cap remaining sequence fuel).2 ≤ 0) := by
  intro fuel
  induction fuel with
  | zero =>
    intro remaining sequence hfuel
    have hcs : cap - sequence = 0 := by omega
    refine ⟨by simp [generate_structuring_go], ?_, ?_, ?_, ?_⟩ <;>
      simp [generate_structuring_go, hcs]
  | succ fuel ih =>
    intro remaining sequence hfuel
    by_cases hg : 0 < remaining ∧ sequence < cap
    · have hrec : generate_structuring_go draws cap remaining sequence (fuel + 1) =
          (round2 (min remaining (draws sequence)) ::
            (generate_structuring_go draws cap
              (remaining - min remaining (draws sequence)) (sequence + 1) fuel).1,
           (generate_structuring_go draws cap
              (remaining - min remaining (draws sequence)) (sequence + 1) fuel).2) := by
        simp [generate_structuring_go, hg]
      obtain ⟨ih1, ih2, ih3, ih4, ih5⟩ :=
        ih (remaining - min remaining (draws sequence)) (sequence + 1) (by omega)
      set a := min remaining (draws sequence) with ha
      set rest := generate_structuring_go draws cap (remaining - a) (sequence + 1) fuel
        with hrest
      have hcs : cap - sequence = (cap - (sequence + 1)) + 1 := by omega
      have hLpos : (0:ℚ) ≤ 39996/5 := by norm_num
      have hknn : (0:ℚ) ≤ ((cap - (sequence + 1) : ℕ) : ℚ) := by positivity
      refine ⟨?_, ?_, ?_, ?_, ?_⟩
      · rw [hrec]
        intro x hx
        rcases List.mem_cons.mp hx with hx | hx
        · subst hx
          have hle : a ≤ 9999 := le_trans (min_le_right _ _) (hd sequence).2
          have := round2_le_of_le_cent a 999900 (by push_cast; linarith)
          norm_num at this
          exact this
        · exact ih1 x hx
      · rw [hrec]
        simp only [List.length_cons]
        omega
      · rw [hrec]
        rcases le_total remaining (draws sequence) with hcase | hcase
        · have haeq : a = remaining := by rw [ha, min_eq_left hcase]
          have h0 : (0:ℚ) ≤ 39996/5 * ((cap - (sequence + 1) : ℕ) : ℚ) := by positivity
          have hmz : min (remaining - a) (39996/5 * ((cap - (sequence + 1) : ℕ) : ℚ)) = 0 := by
            rw [haeq, sub_self, min_eq_left h0]
          have hz : (0:ℚ) ≤ remaining - a - rest.2 := by
            rw [hmz] at ih3
            exact ih3
          calc min remaining (39996/5 * ((cap - sequence : ℕ) : ℚ))
              ≤ remaining := min_le_left _ _
            _ ≤ remaining - rest.2 := by linarith
        · have haeq : a = draws sequence := by rw [ha, min_eq_right hcase]
          have hL : 39996/5 ≤ a := haeq ▸ (hd sequence).1
          have hmin : min (remaining - a) (39996/5 * ((cap - (sequence + 1) : ℕ) : ℚ))
              ≤ remaining - a - rest.2 := ih3
          have hcast : ((cap - sequence : ℕ) : ℚ) = ((cap - (sequence + 1) : ℕ) : ℚ) + 1 := by
            rw [hcs]; push_cast; ring
          have step1 : min remaining (39996/5 * ((cap - sequence : ℕ) : ℚ)) ≤
              min remaining (a + 39996/5 * ((cap - (sequence + 1) : ℕ) : ℚ)) := by
            apply min_le_min le_rfl
            rw [hcast]
            linarith
          have step2 : min remaining (a + 39996/5 * ((cap - (sequence + 1) : ℕ) : ℚ)) =
              a + min (remaining - a) (39996/5 * ((cap - (sequence + 1) : ℕ) : ℚ)) := by
            rw [← min_add_add_left]
            congr 1
            ring
          calc min remaining (39996/5 * ((cap - sequence : ℕ) : ℚ))
              ≤ a + min (remaining - a) (39996/5 * ((cap - (sequence + 1) : ℕ) : ℚ)) := by
                rw [← step2]; exact step1
            _ ≤ a + (remaining - a - rest.2) := by linarith
            _ = remaining - rest.2 := by ring
      · rw [hrec]
        simp only [List.length_cons, List.sum_cons]
        have hr2 : a - 1/200 ≤ round2 a := round2_ge a
        have : remaining - a - rest.2 - (rest.1.length : ℚ) / 200 ≤ rest.1.sum := ih4
        push_cast
        linarith
      · rw [hrec]
        simp only [List.length_cons]
        intro hlen
        exact ih5 (by omega)
    · have hrec : generate_structuring_go draws cap remaining sequence (fuel + 1) =
          ([], remaining) := by
        simp [generate_structuring_go, hg]
      rw [hrec]
      push_neg at hg
      refine ⟨by simp, by simp, ?_, by simp, ?_⟩
      · rcases le_or_lt remaining 0 with hr | hr
        · calc min remaining (39996/5 * ((cap - sequence : ℕ) : ℚ))
              ≤ remaining := min_le_left _ _
            _ ≤ remaining - remaining := by linarith
        · have hseq : cap ≤ sequence := hg hr
          have : (cap - sequence : ℕ) = 0 := by omega
          rw [this]
          simp
      · intro hlen
        simp only [List.length_nil] at hlen
        have hseq : sequence < cap := by omega
        rcases le_or_lt remaining 0 with hr | hr
        · exact hr
        · exact absurd (hg hr) (by omega)

/-- Claim C5 as amended: for a structuring profile with
`individual_max = 9999` and positive target, every generated amount is
≤ 9999, at most `⌈target/9999⌉` transactions are generated (the source's
transaction-count cap), the sum of generated amounts is at least
`0.8 × target` minus a half-cent rounding allowance per transaction, and
the loop stops short of the cap only once the target is exhausted.  (The
bound `target - 9999` claimed originally can be missed when the cap fires
with every draw near the uniform minimum `0.8 × 9999`.) -/
theorem C5_structuring_amended (draws : ℕ → ℚ) (target : ℚ)
    (hd : ∀ n, (8:ℚ)/10 * 9999 ≤ draws n ∧ draws n ≤ 9999) (ht : 0 < target) :
    (∀ x ∈ (generate_structuring_transactions draws target 9999).1, x ≤ 9999) ∧
    (generate_structuring_transactions draws target 9999).1.length ≤
      structuring_transaction_count target 9999 ∧
    (4:ℚ)/5 * target
        - ((generate_structuring_transactions draws target 9999).1.length : ℚ) / 200
      ≤ (generate_structuring_transactions draws target 9999).1.sum ∧
    ((generate_structuring_transactions draws target 9999).1.length <
        structuring_transaction_count target 9999 →
      (generate_structuring_transactions draws target 9999).2 ≤ 0) := by
  have hd2 : ∀ n, 39996/5 ≤ draws n ∧ draws n ≤ 9999 := by
    intro n
    have := hd n
    constructor <;> [linarith [this.1]; exact this.2]
  set cap := structuring_transaction_count target 9999 with hcap
  obtain ⟨h1, h2, h3, h4, h5⟩ :=
    structuring_go_spec draws cap hd2 (cap + 1) target 0 (by omega)
  have hgo : generate_structuring_transactions draws target 9999 =
      generate_structuring_go draws cap target 0 (cap + 1) := rfl
  have hcapq : ((cap : ℕ) : ℚ) = (⌈target / 9999⌉ : ℚ) := by
    rw [hcap]
    unfold structuring_transaction_count
    have hnn : (0:ℤ) ≤ ⌈target / 9999⌉ := by
      apply Int.ceil_nonneg
      positivity
    exact_mod_cast Int.toNat_of_nonneg hnn
  have hLcap : (4:ℚ)/5 * target ≤ 39996/5 * ((cap : ℕ) : ℚ) := by
    rw [hcapq]
    have hceil : target / 9999 ≤ (⌈target / 9999⌉ : ℚ) := Int.le_ceil _
    have h9999 : (0:ℚ) < 9999 := by norm_num
    calc (4:ℚ)/5 * target = 39996/5 * (target / 9999) := by ring
      _ ≤ 39996/5 * (⌈target / 9999⌉ : ℚ) := by
          apply mul_le_mul_of_nonneg_left hceil
          norm_num
  have hmin : (4:ℚ)/5 * target ≤ min target (39996/5 * ((cap - 0 : ℕ) : ℚ)) := by
    apply le_min
    · linarith
    · simpa using hLcap
  refine ⟨fun x hx => h1 x (hgo ▸ hx), ?_, ?_, ?_⟩
  · rw [hgo]
    simpa using h2
  · rw [hgo]
    have := h3
    have := h4
    linarith [hmin]
  · rw [hgo]
    intro hlen
    exact h5 (by simpa using hlen)

/-- Witness for `C5_structuring_amended`: target 20000 with every draw
equal to 9000 generates amounts summing to 20000, well above
`0.8 × 20000` minus the rounding allowance. -/
theorem C5_structuring_amended_witness :
    (∀ n : ℕ, (8:ℚ)/10 * 9999 ≤ (fun _ => (9000:ℚ)) n ∧
      (fun _ => (9000:ℚ)) n ≤ 9999) ∧
    (0:ℚ) < 20000 ∧
    ((4:ℚ)/5 * 20000
        - ((generate_structuring_transactions (fun _ => 9000) 20000 9999).1.length : ℚ) / 200
      ≤ (generate_structuring_transactions (fun _ => 9000) 20000 9999).1.sum) :=
  ⟨fun _ => ⟨by norm_num, by norm_num⟩, by norm_num,
    (C5_structuring_amended (fun _ => 9000) 20000
      (fun _ => ⟨by norm_num, by norm_num⟩) (by norm_num)).2.2.1⟩

/-- `FraudGenerator._generate_card_testing_transactions` (fraud.py lines
470-507), projected to (1-based test sequence, rounded amount): candidate
`i` is skipped when `random.random() > success_rate`
(`suppress_draws i > success_rate`), otherwise emitted. -/
def generate_card_testing_transactions (suppress_draws amount_draws : ℕ → ℚ)
    (success_rate : ℚ) (transaction_count : ℕ) : List (ℕ × ℚ) :=
  (List.range transaction_count).filterMap (fun i =>
    if suppress_draws i > success_rate then none
    else some (i + 1, round2 (amount_draws i)))

/-- `FraudGenerator._generate_unusual_location_transactions` (fraud.py
lines 767-802), projected to (1-based sequence, rounded amount): every
candidate `i` in `range(transaction_count)` is emitted --- this generator
performs no `success_rate` roll. -/
def generate_unusual_location_transactions (amount_draws : ℕ → ℚ)
    (transaction_count : ℕ) : List (ℕ × ℚ) :=
  (List.range transaction_count).map (fun i => (i + 1, round2 (amount_draws i)))

/-- The materialization rule as claim C6 states it for every fraud type:
exactly the candidates whose uniform draw does not exceed the profile's
`success_rate` materialize. -/
def claimed_materialized_count (suppress_draws : ℕ → ℚ) (success_rate : ℚ)
    (transaction_count : ℕ) : ℕ :=
  ((List.range transaction_count).filter
    (fun i => decide ¬ (suppress_draws i > success_rate))).length

theorem filterMap_ite_eq_map_filter {α β : Type} (l : List α) (c : α → Prop)
    [DecidablePred c] (f : α → β) :
    l.filterMap (fun i => if c i then none else some (f i)) =
      (l.filter (fun i => decide ¬ (c i))).map f := by
  induction l with
  | nil => rfl
  | cons a t ih =>
    by_cases h : c a <;>
      simp [List.filterMap_cons, List.filter_cons, h, ih]

/-- Claim C6, counterexample: a fraud profile of type `unusual_location`
with `transaction_count = 2` materializes both candidates no matter what
the suppression draws are, while the claimed per-candidate suppression
rule (with `success_rate = 0.6` as set by the profile constructor, and
both draws `0.9 > 0.6`) would materialize none: the success-rate roll is
NOT applied for all fraud pattern types. -/
theorem C6_success_rate_counterexample :
    (generate_unusual_location_transactions (fun _ => 1/2) 2).length = 2 ∧
    claimed_materialized_count (fun _ => 9/10) (6/10) 2 = 0 ∧
    (2 : ℕ) ≠ 0 := by
  have hp : (9:ℚ)/10 > 6/10 := by norm_num
  refine ⟨rfl, ?_, by norm_num⟩
  simp [claimed_materialized_count, hp]

/-- Claim C6 as amended: the per-candidate `success_rate` suppression
(skip exactly when the uniform draw exceeds `success_rate`) is applied by
the card-testing generator (and likewise velocity-attack and
large-amount, whose loops are identical in shape), but the
unusual-location generator (and likewise account-takeover, layering,
structuring and the generic fallback) emits every candidate with no
suppression roll. -/
theorem C6_success_rate_amended (suppress_draws amount_draws : ℕ → ℚ)
    (success_rate : ℚ) (transaction_count : ℕ) :
    generate_card_testing_transactions suppress_draws amount_draws success_rate
        transaction_count =
      ((List.range transaction_count).filter
          (fun i => decide ¬ (suppress_draws i > success_rate))).map
        (fun i => (i + 1, round2 (amount_draws i))) ∧
    (generate_unusual_location_transactions amount_draws transaction_count).length =
      transaction_count := by
  constructor
  · exact filterMap_ite_eq_map_filter (List.range transaction_count)
      (fun i => suppress_draws i > success_rate)
      (fun i => (i + 1, round2 (amount_draws i)))
  · simp [generate_unusual_location_transactions]

/-!  ## Fraud-pattern setup (src/simulator/engine.py,
`SimulationEngine._setup_fraud_patterns`, lines 593-627) -/

/-- Python `int(x)` truncation toward zero. -/
def python_int (q : ℚ) : ℤ := if 0 ≤ q then ⌊q⌋ else -⌊-q⌋

/-- `num_targets = max(1, int(len(self.state.customers) *
pattern_config.weight))` (engine.py line 602). -/
def num_fraud_targets (population : ℕ) (weight : ℚ) : ℕ :=
  max 1 (python_int ((population : ℚ) * weight)).toNat

/-- The target-count formula as claim C7 states it, with `round` in place
of the source's truncating `int` --- kept for comparison with
`num_fraud_targets`. -/
def num_fraud_targets_claimed (population : ℕ) (weight : ℚ) : ℕ :=
  max 1 (round ((population : ℚ) * weight)).toNat

/-- A fraud profile as produced by the setup loop, projected to its
target customer (the loop builds one profile per selected customer). -/
structure FraudProfileM where
  target_customer : String
deriving DecidableEq, Repr

/-- `_setup_fraud_patterns` for a single configured pattern: compute the
target count, sample that many distinct customers
(`random.sample(self.state.customers, num_targets)`, modelled by the
`sample` argument), and create one fraud profile per selected customer. -/
def setup_fraud_pattern (customers : List String) (weight : ℚ)
    (sample : ℕ → List String) : List FraudProfileM :=
  (sample (num_fraud_targets customers.length weight)).map (fun c => ⟨c⟩)

/-- Claim C7, counterexample: with 3 customers and pattern weight 0.5 the
code computes `max(1, int(3 × 0.5)) = max(1, int(1.5)) = 1` target, while
the claimed formula `max(1, round(3 × 0.5)) = 2` (1.5 rounds to 2 under
both Python's half-even and ordinary half-up rounding): the code
truncates, it does not round. -/
theorem C7_fraud_targets_counterexample :
    num_fraud_targets 3 (1/2) = 1 ∧
    num_fraud_targets_claimed 3 (1/2) = 2 ∧
    (1 : ℕ) ≠ 2 := by
  refine ⟨?_, ?_, by norm_num⟩
  · have h1 : python_int (((3:ℕ) : ℚ) * (1/2)) = 1 := by
      unfold python_int
      rw [if_pos (by norm_num)]
      norm_num
    rw [num_fraud_targets, h1]
    rfl
  · have h2 : round (((3:ℕ) : ℚ) * (1/2)) = 2 := by
      rw [round_eq]
      norm_num
    rw [num_fraud_targets_claimed, h2]
    rfl

/-- Claim C7 as amended: for every configured fraud pattern the number of
fraud profiles created equals `max(1, int(population_size × weight))`
(truncating `int`, not `round`), the target customers are pairwise
distinct (sampled without replacement) and drawn from the population;
`sample` carries the `random.sample` contract (right length, no
duplicates, members of the population). -/
theorem C7_fraud_targets_amended (customers : List String) (weight : ℚ)
    (sample : ℕ → List String)
    (hw1 : weight ≤ 1) (hpop : 1 ≤ customers.length)
    (hsample : ∀ n, n ≤ customers.length →
      (sample n).length = n ∧ (sample n).Nodup ∧ ∀ c ∈ sample n, c ∈ customers) :
    (setup_fraud_pattern customers weight sample).length =
      max 1 (python_int ((customers.length : ℚ) * weight)).toNat ∧
    ((setup_fraud_pattern customers weight sample).map
      (fun p => p.target_customer)).Nodup ∧
    ∀ p ∈ setup_fraud_pattern customers weight sample,
      p.target_customer ∈ customers := by
  have hint : python_int ((customers.length : ℚ) * weight) ≤ (customers.length : ℤ) := by
    unfold python_int
    split_ifs with h0
    · have hle : (customers.length : ℚ) * weight ≤ (customers.length : ℚ) := by
        have := mul_le_mul_of_nonneg_left hw1 (by positivity : (0:ℚ) ≤ (customers.length : ℚ))
        simpa using this
      calc ⌊(customers.length : ℚ) * weight⌋ ≤ ⌊(customers.length : ℚ)⌋ :=
            Int.floor_le_floor hle
        _ = (customers.length : ℤ) := by
            rw [Int.floor_natCast]
    · have hneg : (customers.length : ℚ) * weight < 0 := lt_of_not_ge h0
      have hpos : (0:ℚ) ≤ -((customers.length : ℚ) * weight) := by linarith
      have : 0 ≤ ⌊-((customers.length : ℚ) * weight)⌋ := Int.floor_nonneg.mpr hpos
      omega
  have hnum : num_fraud_targets customers.length weight ≤ customers.length := by
    unfold num_fraud_targets
    apply max_le hpop
    exact Int.toNat_le.mpr hint
  obtain ⟨hlen, hnodup, hmem⟩ := hsample (num_fraud_targets customers.length weight) hnum
  refine ⟨?_, ?_, ?_⟩
  · rw [setup_fraud_pattern, List.length_map, hlen]
    rfl
  · rw [setup_fraud_pattern, List.map_map]
    have hcomp : ((fun p => FraudProfileM.target_customer p) ∘
        fun c => FraudProfileM.mk c) = id := rfl
    rw [hcomp, List.map_id]
    exact hnodup
  · intro p hp
    rw [setup_fraud_pattern] at hp
    obtain ⟨c, hc, hpc⟩ := List.mem_map.mp hp
    rw [← hpc]
    exact hmem c hc

/-- Witness for `C7_fraud_targets_amended`: three customers, weight 0.5,
`random.sample` modelled by `List.take`; exactly one profile is created. -/
theorem C7_fraud_targets_witness :
    ((1:ℚ)/2 ≤ 1) ∧
    (1 ≤ (["a", "b", "c"] : List String).length) ∧
    (setup_fraud_pattern ["a", "b", "c"] (1/2)
        (fun n => (["a", "b", "c"] : List String).take n)).length =
      max 1 (python_int (((["a", "b", "c"] : List String).length : ℚ) * (1/2))).toNat :=
  ⟨by norm_num, by norm_num,
    (C7_fraud_targets_amended ["a", "b", "c"] (1/2)
      (fun n => (["a", "b", "c"] : List String).take n)
      (by norm_num) (by norm_num)
      (fun n hn => ⟨by simpa using hn,
        (List.take_sublist n _).nodup (by simp),
        fun c hc => List.take_subset n _ hc⟩)).1⟩

/-!  ## Life-event overlay (src/simulator/generators/events.py,
`LifeEventGenerator.apply_event_effects`, lines 611-645)

The customer profile is projected to a representative subset of its
fields; the dynamically attached attributes (`event_risk_adjustment`,
`event_locations`, `event_channels`) are modelled as `Option` fields of a
separate overlay record, `none` meaning the attribute was never attached
(the empty-events early return). -/

structure CustomerProfile where
  customer_id : String
  first_name : String
  transaction_frequency : ℚ
  credit_score : ℕ
  fraud_awareness_score : ℚ
deriving DecidableEq, Repr

structure LifeEvent where
  event_id : String
  customer_id : String
  transaction_frequency_multiplier : ℚ
  risk_score_adjustment : ℚ
  new_locations : List String
  channel_preferences : Option (List String)
deriving DecidableEq, Repr

structure OverlaidCustomer where
  profile : CustomerProfile
  event_risk_adjustment : Option ℚ
  event_locations : Option (List String)
  event_channels : Option (Option (List String))
deriving DecidableEq, Repr

/-- `LifeEventGenerator.apply_event_effects`: the empty case returns the
customer untouched (no overlay attributes); otherwise a copied profile
gets its transaction frequency multiplied by the product of all
multipliers, and the summed risk adjustment, concatenated locations and
last truthy channel override are attached.  (Python's
`if event.channel_preferences:` is falsy for both `None` and `[]`.) -/
def apply_event_effects (customer : CustomerProfile)
    (active_events : List LifeEvent) : OverlaidCustomer :=
  if active_events = [] then ⟨customer, none, none, none⟩
  else
    let total_transaction_multiplier :=
      active_events.foldl (fun acc e => acc * e.transaction_frequency_multiplier) 1
    let total_risk_adjustment :=
      active_events.foldl (fun acc e => acc + e.risk_score_adjustment) 0
    let new_locations :=
      active_events.foldl (fun acc e => acc ++ e.new_locations) ([] : List String)
    let channel_preferences :=
      active_events.foldl (fun acc e =>
        match e.channel_preferences with
        | some l => if l = [] then acc else some l
        | none => acc) (none : Option (List String))
    { profile := { customer with transaction_frequency :=
        customer.transaction_frequency * total_transaction_multiplier },
      event_risk_adjustment := some total_risk_adjustment,
      event_locations := some new_locations,
      event_channels := some channel_preferences }

theorem foldl_mul_multiplier (es : List LifeEvent) (a : ℚ) :
    es.foldl (fun acc e => acc * e.transaction_frequency_multiplier) a =
      a * (es.map (fun e => e.transaction_frequency_multiplier)).prod := by
  induction es generalizing a with
  | nil => simp
  | cons e t ih => simp [ih, mul_assoc]

theorem foldl_add_adjustment (es : List LifeEvent) (a : ℚ) :
    es.foldl (fun acc e => acc + e.risk_score_adjustment) a =
      a + (es.map (fun e => e.risk_score_adjustment)).sum := by
  induction es generalizing a with
  | nil => simp
  | cons e t ih =>
    simp only [List.foldl_cons, List.map_cons, List.sum_cons, ih]
    ring

/-- Claim C8: for any customer profile and non-empty list of active life
events, `apply_event_effects` returns a derived view whose transaction
frequency is the base frequency times the product of all the events'
multipliers, whose attached risk adjustment is the sum of all the events'
adjustments, and all other profile fields are carried over unchanged (the
embedding is pure, so the stored base profile itself is untouched by
construction). -/
theorem C8_life_event_overlay (c : CustomerProfile) (es : List LifeEvent)
    (h : es ≠ []) :
    (apply_event_effects c es).profile.transaction_frequency =
      c.transaction_frequency *
        (es.map (fun e => e.transaction_frequency_multiplier)).prod ∧
    (apply_event_effects c es).event_risk_adjustment =
      some ((es.map (fun e => e.risk_score_adjustment)).sum) ∧
    (apply_event_effects c es).profile.customer_id = c.customer_id ∧
    (apply_event_effects c es).profile.first_name = c.first_name ∧
    (apply_event_effects c es).profile.credit_score = c.credit_score ∧
    (apply_event_effects c es).profile.fraud_awareness_score =
      c.fraud_awareness_score := by
  unfold apply_event_effects
  rw [if_neg h]
  refine ⟨?_, ?_, rfl, rfl, rfl, rfl⟩
  · show c.transaction_frequency *
      es.foldl (fun acc e => acc * e.transaction_frequency_multiplier) 1 = _
    rw [foldl_mul_multiplier, one_mul]
  · show some (es.foldl (fun acc e => acc + e.risk_score_adjustment) 0) = _
    rw [foldl_add_adjustment, zero_add]

/-- Witness for `C8_life_event_overlay`: two simultaneously active events
with multipliers 1.5 and 2.0 and risk adjustments 0.1 and 0.2 overlay a
base frequency of 10 into frequency 30 and attached risk adjustment 0.3
(the spec's own example). -/
theorem C8_life_event_overlay_witness :
    (([⟨"EVT_1", "CUST_1", 3/2, 1/10, [], none⟩,
       ⟨"EVT_2", "CUST_1", 2, 1/5, [], none⟩] : List LifeEvent) ≠ []) ∧
    (apply_event_effects ⟨"CUST_1", "Alice", 10, 650, 1/2⟩
        [⟨"EVT_1", "CUST_1", 3/2, 1/10, [], none⟩,
         ⟨"EVT_2", "CUST_1", 2, 1/5, [], none⟩]).profile.transaction_frequency =
      (⟨"CUST_1", "Alice", 10, 650, 1/2⟩ : CustomerProfile).transaction_frequency *
        (([⟨"EVT_1", "CUST_1", 3/2, 1/10, [], none⟩,
           ⟨"EVT_2", "CUST_1", 2, 1/5, [], none⟩] : List LifeEvent).map
          (fun e => e.transaction_frequency_multiplier)).prod ∧
    (⟨"CUST_1", "Alice", 10, 650, 1/2⟩ : CustomerProfile).transaction_frequency *
        (([⟨"EVT_1", "CUST_1", 3/2, 1/10, [], none⟩,
           ⟨"EVT_2", "CUST_1", 2, 1/5, [], none⟩] : List LifeEvent).map
          (fun e => e.transaction_frequency_multiplier)).prod = 30 ∧
    ((([⟨"EVT_1", "CUST_1", 3/2, 1/10, [], none⟩,
        ⟨"EVT_2", "CUST_1", 2, 1/5, [], none⟩] : List LifeEvent).map
          (fun e => e.risk_score_adjustment)).sum : ℚ) = 3/10 :=
  ⟨by simp,
    (C8_life_event_overlay ⟨"CUST_1", "Alice", 10, 650, 1/2⟩
      [⟨"EVT_1", "CUST_1", 3/2, 1/10, [], none⟩,
       ⟨"EVT_2", "CUST_1", 2, 1/5, [], none⟩] (by simp)).1,
    by norm_num, by norm_num⟩

/-!  ## Mock core-banking connector (src/simulator/connectors/nexum.py,
`MockNexumConnector`, lines 504-534)

The in-memory account store maps account ids to their book balance (the
`f"{balance:.2f}"` strings are idealised as the rational they denote);
generated transaction ids `TXN_{n:06d}` are tracked by their counter. -/

structure MockNexumState where
  accounts : List (String × ℚ)
  next_transaction_id : ℕ
deriving DecidableEq, Repr

def lookup_account (accounts : List (String × ℚ)) (account_id : String) :
    Option ℚ :=
  (accounts.find? (fun p => p.1 == account_id)).map (fun p => p.2)

/-- `MockNexumConnector._mock_get_account` (nexum.py lines 504-507):
unknown ids raise `NexumAPIError(404, "Account not found")`. -/
def mock_get_account (st : MockNexumState) (account_id : String) :
    Except (ℕ × String) ℚ :=
  match lookup_account st.accounts account_id with
  | none => .error (404, "Account not found")
  | some bal => .ok bal

structure DepositResponse where
  transaction_id : ℕ
  state : String
deriving DecidableEq, Repr

/-- `MockNexumConnector._mock_deposit` (nexum.py lines 516-534): allocate
the next transaction id, update the balance only `if account_id in
self.accounts`, and unconditionally answer `state = "processed"`. -/
def mock_deposit (st : MockNexumState) (account_id : String) (amount : ℚ) :
    MockNexumState × DepositResponse :=
  let transaction_id := st.next_transaction_id
  let accounts1 :=
    if (lookup_account st.accounts account_id).isSome then
      st.accounts.map (fun p =>
        if p.1 == account_id then (p.1, round2 (p.2 + amount)) else p)
    else st.accounts
  ({ accounts := accounts1, next_transaction_id := st.next_transaction_id + 1 },
   { transaction_id := transaction_id, state := "processed" })

/-- Claim C10: a deposit to an account id absent from the mock store does
not fail --- it returns state `processed` with the freshly allocated
transaction id and leaves every stored balance untouched --- even though
`get_account` on the same id raises a 404 API error. -/
theorem C10_mock_deposit_unknown_account (st : MockNexumState)
    (account_id : String) (amount : ℚ)
    (h : lookup_account st.accounts account_id = none) :
    (mock_deposit st account_id amount).2.state = "processed" ∧
    (mock_deposit st account_id amount).2.transaction_id =
      st.next_transaction_id ∧
    (mock_deposit st account_id amount).1.next_transaction_id =
      st.next_transaction_id + 1 ∧
    (mock_deposit st account_id amount).1.accounts = st.accounts ∧
    mock_get_account st account_id = .error (404, "Account not found") := by
  refine ⟨rfl, rfl, rfl, ?_, ?_⟩
  · show (if (lookup_account st.accounts account_id).isSome then _ else st.accounts) = _
    rw [h]
    rfl
  · unfold mock_get_account
    rw [h]

/-- Witness for `C10_mock_deposit_unknown_account`: a store holding one
account `ACC_000001`, a deposit of 100 to the unknown `ACC_999999`. -/
theorem C10_mock_deposit_witness :
    lookup_account [("ACC_000001", (500:ℚ))] "ACC_999999" = none ∧
    (mock_deposit ⟨[("ACC_000001", 500)], 7⟩ "ACC_999999" 100).2.state =
      "processed" ∧
    (mock_deposit ⟨[("ACC_000001", 500)], 7⟩ "ACC_999999" 100).1.accounts =
      ([("ACC_000001", 500)] : List (String × ℚ)) :=
  ⟨rfl,
    (C10_mock_deposit_unknown_account ⟨[("ACC_000001", 500)], 7⟩
      "ACC_999999" 100 rfl).1,
    (C10_mock_deposit_unknown_account ⟨[("ACC_000001", 500)], 7⟩
      "ACC_999999" 100 rfl).2.2.2.1⟩

end BankingSim
